import Mathlib

/-!
Shallow embedding of the fn-api-client request layer.

The embedding models the runtime JavaScript semantics the TypeScript source
relies on: an untyped value domain (`Js`), truthiness, optional chaining,
throwing member access on `null`/`undefined`, and the `||` operator.
Source locations are given for each embedded function.
-/

namespace FnApi

/-- Untyped JavaScript value domain. Objects are insertion-ordered key/value
lists, matching `Object.entries` iteration order. -/
inductive Js where
  | null
  | undefined
  | str (s : String)
  | num (n : Int)
  | bool (b : Bool)
  | obj (fields : List (String × Js))

/-- JavaScript truthiness. -/
def Js.truthy : Js → Bool
  | .null => false
  | .undefined => false
  | .str s => decide (s ≠ "")
  | .num n => decide (n ≠ 0)
  | .bool b => b
  | .obj _ => true

/-- The JavaScript `a || b` operator on values. -/
def jsOr (a b : Js) : Js := if a.truthy then a else b

/-- Optional-chaining member access `x?.k`: `undefined` on `null`/`undefined`
receivers and on missing keys, no exception ever. -/
def Js.optField : Js → String → Js
  | .obj fs, k => (fs.lookup k).getD .undefined
  | _, _ => .undefined

/-- The JavaScript `k in x` key-presence test (used for overload sniffing). -/
def Js.hasKey : Js → String → Bool
  | .obj fs, k => fs.any (fun p => p.1 = k)
  | _, _ => false

/-- `Array.prototype.join(sep)` on strings (also `String.prototype` use in
the synthesizer): empty list joins to `""`. -/
def joinSep (sep : String) : List String → String
  | [] => ""
  | [a] => a
  | a :: b :: rest => a ++ sep ++ joinSep sep (b :: rest)

/-- `ApiError` (src/types/types.ts). `message` is kept in the value domain
because the source computes it with `||`, which can propagate any truthy
runtime value. -/
structure ApiError where
  message : Js
  status : Nat
  code : Option String
  details : Js

/-- `ApiResponse<T>` (src/types/types.ts). -/
structure ApiResponse where
  data : Js
  status : Nat
  message : Js

/-- A raw transport (axios) success response: `{status, data}`. -/
structure AxiosResponse where
  status : Nat
  data : Js

/-- A raw transport (axios) failure: optional received response plus an
optional transport error code. -/
structure AxiosFailure where
  response : Option AxiosResponse
  code : Option String

/-- A thrown JavaScript exception, as far as the catch blocks inspect it:
either the transport's failure object (with `response`/`code` fields) or a
generic runtime exception (e.g. a TypeError) carrying neither. -/
inductive Thrown where
  | axios (f : AxiosFailure)
  | jsError

/-- Throwing member access `x.k`: raises a TypeError on `null`/`undefined`
receivers, yields `undefined` on missing keys and primitive receivers. -/
def Js.readField : Js → String → Except Thrown Js
  | .null, _ => .error .jsError
  | .undefined, _ => .error .jsError
  | .obj fs, k => .ok ((fs.lookup k).getD .undefined)
  | _, _ => .ok .undefined

def defaultErrorMessage : Js := .str "Ocorreu um erro na requisição"

def defaultSuccessMessage : Js := .str "Operação realizada com sucesso"

/-- `ApiClient.extractErrorData` (src/unnamed/part_003 lines 262-271):
`message = (error.response?.data)?.message || default`,
`status = error.response?.status || 500`, `code = error.code`,
`details = error.response?.data`. -/
def extractErrorData (e : AxiosFailure) : ApiError :=
  let respData : Js := match e.response with
    | some r => r.data
    | none => .undefined
  { message := jsOr (respData.optField "message") defaultErrorMessage
    status := match e.response with
      | some r => if r.status = 0 then 500 else r.status
      | none => 500
    code := e.code
    details := respData }

/-- `ApiClient.extractResponseData` (src/unnamed/part_003 lines 279-286):
reads `response.data.message` with a throwing member access, so a `null` or
`undefined` payload raises a TypeError. -/
def extractResponseData (r : AxiosResponse) : Except Thrown ApiResponse :=
  match r.data.readField "message" with
  | .error t => .error t
  | .ok m => .ok { data := r.data, status := r.status, message := jsOr m defaultSuccessMessage }

/-- The union `ApiError | ApiResponse<unknown>` returned by error
interceptors; the source detects the response side structurally via
`'data' in result`, which holds exactly for the `ApiResponse` shape. -/
inductive ErrOrResp where
  | err (e : ApiError)
  | resp (r : ApiResponse)

/-- The `'data' in result` structural test. -/
def ErrOrResp.hasData : ErrOrResp → Bool
  | .err _ => false
  | .resp _ => true

/-- An error interceptor: may return a processed error or a recovery
response, or raise (the `Except.error` case, caught by the chain). -/
def ErrorInterceptor := ApiError → Except Unit ErrOrResp

/-- A response interceptor: may return a processed response or raise
(propagating into the verb method's catch block). -/
def ResponseInterceptor := ApiResponse → Except Thrown ApiResponse

/-- Loop body of `ApiClient.applyErrorInterceptors` (src/unnamed/part_003
lines 236-254). Every iteration invokes `interceptor error` on the original
`error` parameter (the source passes `error`, not `processedError`); the
accumulator `processedError` is overwritten with each non-throwing result,
the loop breaks as soon as a result has a `data` field, and a throwing
interceptor is logged (`console.warn`, not modelled) and skipped. The second
component records the argument passed to each invoked interceptor. -/
def applyErrorInterceptorsGo (error : ApiError) :
    List ErrorInterceptor → ErrOrResp → ErrOrResp × List ApiError
  | [], processedError => (processedError, [])
  | interceptor :: rest, processedError =>
    match interceptor error with
    | .error _ =>
      let r := applyErrorInterceptorsGo error rest processedError
      (r.1, error :: r.2)
    | .ok result =>
      if result.hasData then (result, [error])
      else
        let r := applyErrorInterceptorsGo error rest result
        (r.1, error :: r.2)

/-- `ApiClient.applyErrorInterceptors` (src/unnamed/part_003 lines 236-254):
the value the chain produces. -/
def applyErrorInterceptors (ints : List ErrorInterceptor) (error : ApiError) : ErrOrResp :=
  (applyErrorInterceptorsGo error ints (.err error)).1

/-- The arguments passed to the interceptors actually invoked by
`applyErrorInterceptors`, in invocation order. -/
def errorInterceptorArgs (ints : List ErrorInterceptor) (error : ApiError) : List ApiError :=
  (applyErrorInterceptorsGo error ints (.err error)).2

/-- Modelled from the spec: "each error transform receives the *current*
error value" — the chained variant in which every transform is applied to
the value produced by its predecessor. Written for comparison with
`applyErrorInterceptors`, which is translated from the source. -/
def applyErrorInterceptorsSpecChained : List ErrorInterceptor → ApiError → ErrOrResp
  | [], current => .err current
  | interceptor :: rest, current =>
    match interceptor current with
    | .error _ => applyErrorInterceptorsSpecChained rest current
    | .ok (.resp r) => .resp r
    | .ok (.err e) => applyErrorInterceptorsSpecChained rest e

/-- An interceptor result that is a recovery (`Response` shape). -/
def isRecovery (x : Except Unit ErrOrResp) : Prop := ∃ r, x = .ok (.resp r)

instance (x : Except Unit ErrOrResp) : Decidable (isRecovery x) := by
  unfold isRecovery
  match x with
  | .error u => exact .isFalse (by rintro ⟨r, h⟩; cases h)
  | .ok (.err e) => exact .isFalse (by rintro ⟨r, h⟩; cases h)
  | .ok (.resp r) => exact .isTrue ⟨r, rfl⟩

/-- Which of the two optional callbacks the caller supplied. The callback
bodies are opaque to the pipeline (they are only invoked, never inspected),
so only their presence is modelled. -/
structure Callbacks where
  hasOnSuccess : Bool
  hasOnError : Bool

/-- One callback invocation performed by a verb method. -/
inductive CallbackEvent where
  | success (r : ApiResponse)
  | failure (e : ApiError)

def CallbackEvent.isFailure : CallbackEvent → Bool
  | .success _ => false
  | .failure _ => true

/-- The `catch` blocks run `extractErrorData(error as AxiosError)` on
whatever was thrown; a non-axios exception has `undefined` `response` and
`code` fields. -/
def caughtFailure : Thrown → AxiosFailure
  | .axios f => f
  | .jsError => { response := none, code := none }

/-- The normalized error a catch block produces from a thrown value. -/
def thrownToApiError (t : Thrown) : ApiError := extractErrorData (caughtFailure t)

/-- `ApiClient.applyResponseInterceptors` (src/unnamed/part_003 lines
223-228): a left fold; a throwing response interceptor propagates into the
verb method's catch block (no per-interceptor catch here). -/
def applyResponseInterceptors (ints : List ResponseInterceptor) (response : ApiResponse) :
    Except Thrown ApiResponse :=
  ints.foldlM (fun processedResponse interceptor => interceptor processedResponse) response

/-- Callback dispatch in the error path of every verb method
(src/unnamed/part_003 lines 357-362): a result with a `data` field goes to
`onSuccess?.`, anything else to `onError?.`. -/
def dispatchErrorResult (cb : Callbacks) : ErrOrResp → List CallbackEvent
  | .resp r => if cb.hasOnSuccess then [.success r] else []
  | .err e => if cb.hasOnError then [.failure e] else []

/-- Outcome of the raw transport call made inside the `try` block. -/
inductive TransportResult where
  | ok (r : AxiosResponse)
  | fail (f : AxiosFailure)

/-- The shared success/error handling of `ApiClient.get`/`post`/`put`/
`delete` (src/unnamed/part_003 lines 330-363, 388-424, 449-485, 530-563 —
the four bodies are identical after the transport call): the `try` block up
to the response-interceptor fold — the transport failure, the normalizer's
TypeError, or a throwing response interceptor all surface here as
`Except.error`. -/
def verbTry (respInts : List ResponseInterceptor) (t : TransportResult) :
    Except Thrown ApiResponse :=
  match t with
  | .fail f => .error (.axios f)
  | .ok r =>
    match extractResponseData r with
    | .error th => .error th
    | .ok fr => applyResponseInterceptors respInts fr

/-- The catch/dispatch half of the same verb bodies: on success call
`onSuccess?.`; on anything thrown, normalize, run the error-interceptor
chain, and dispatch on the `'data' in` test. -/
def verbRun (respInts : List ResponseInterceptor) (errInts : List ErrorInterceptor)
    (t : TransportResult) (cb : Callbacks) : List CallbackEvent :=
  match verbTry respInts t with
  | .ok formattedResponse =>
    if cb.hasOnSuccess then [.success formattedResponse] else []
  | .error th =>
    dispatchErrorResult cb (applyErrorInterceptors errInts (thrownToApiError th))

/-- `RequestConfig` (src/types/types.ts); `params` and `data` live in the
value domain. -/
structure RequestConfig where
  url : String
  method : String
  headers : List (String × Js)
  data : Js := .undefined
  params : Js := .undefined
  timeout : Option Nat := none

def RequestInterceptor := RequestConfig → RequestConfig

/-- `ApiClient.applyRequestInterceptors` (src/unnamed/part_003 lines
210-215): a left fold over the registered request interceptors. -/
def applyRequestInterceptors (ints : List RequestInterceptor) (config : RequestConfig) :
    RequestConfig :=
  ints.foldl (fun processedConfig interceptor => interceptor processedConfig) config

/-- The second-argument disambiguation of `ApiClient.get` and
`ApiClient.delete` (src/unnamed/part_003 lines 314-328 and 514-528): if the
argument is truthy and has an `onSuccess` or `onError` key it is the
callbacks object and `params` stays `undefined`; otherwise it is the params
map and the third argument (defaulting to `\x7b\x7d`) supplies the
callbacks. Returns `(params, finalCallbacks)`. -/
def resolveParamsOrCallbacks (paramsOrCallbacks : Js) (callbacks : Option Js) : Js × Js :=
  if paramsOrCallbacks.truthy &&
      (paramsOrCallbacks.hasKey "onSuccess" || paramsOrCallbacks.hasKey "onError") then
    (.undefined, paramsOrCallbacks)
  else
    (paramsOrCallbacks, callbacks.getD (.obj []))

/-- The query-parameter value `ApiClient.get` hands to the transport
(src/unnamed/part_003 lines 332-343): the initial config carries the
resolved `params`; after the request-interceptor fold the dispatched value
is `requestConfig.params || params`. -/
def getSentParams (reqInts : List RequestInterceptor) (url : String)
    (paramsOrCallbacks : Js) (callbacks : Option Js) : Js :=
  let params := (resolveParamsOrCallbacks paramsOrCallbacks callbacks).1
  let requestConfig := applyRequestInterceptors reqInts
    { url := url, method := "GET", headers := [], params := params }
  jsOr requestConfig.params params

/-- The JavaScript `String(x)` conversion, used by `Array.prototype.join`. -/
def jsStringOf : Js → String
  | .null => "null"
  | .undefined => "undefined"
  | .str s => s
  | .num n => toString n
  | .bool b => if b then "true" else "false"
  | .obj _ => "[object Object]"

def jsonEscapeChar (c : Char) : String :=
  if c = '\\' then "\\\\"
  else if c = '"' then "\\\""
  else if c = '\n' then "\\n"
  else if c = '\t' then "\\t"
  else if c = '\r' then "\\r"
  else String.singleton c

def jsonEscape (s : String) : String := String.join (s.data.map jsonEscapeChar)

mutual

/-- `JSON.stringify` as the filter renderer uses it, composed with the
template-literal conversion (so `undefined` renders as the text
"undefined"). Escaping of control characters other than `\n`, `\t`, `\r` is
not modelled. -/
def jsonStringify : Js → String
  | .null => "null"
  | .undefined => "undefined"
  | .str s => "\"" ++ jsonEscape s ++ "\""
  | .num n => toString n
  | .bool b => if b then "true" else "false"
  | .obj fs => "\x7b" ++ jsonStringifyFields fs ++ "\x7d"

def jsonStringifyFields : List (String × Js) → String
  | [] => ""
  | [p] => "\"" ++ jsonEscape p.1 ++ "\":" ++ jsonStringify p.2
  | p :: q :: rest =>
    "\"" ++ jsonEscape p.1 ++ "\":" ++ jsonStringify p.2 ++ "," ++
      jsonStringifyFields (q :: rest)

end

/-- A filter value: either a JavaScript array (rendered as a bracketed,
comma-joined list of raw elements) or a scalar (rendered via
`JSON.stringify`). -/
inductive FilterVal where
  | arr (elems : List Js)
  | scalar (v : Js)

/-- Filter-operator map for one field (`\x7boperator: value\x7d`),
insertion-ordered. -/
abbrev FilterConditions := List (String × FilterVal)

/-- Per-entity filter map: field name to its conditions. -/
abbrev EntityFilters := List (String × FilterConditions)

/-- `CubeQueryWhere`: entity name to its filters, insertion-ordered. -/
abbrev WhereMap := List (String × EntityFilters)

/-- `CubeQueryFields`: entity name to a field-selection map. -/
abbrev FieldsMap := List (String × List (String × Bool))

/-- `CubeQueryOptions` (src/types/graphql.ts): absent optional members are
`none`/`[]`. -/
structure CubeQueryOptions where
  limit : Option Int := none
  offset : Option Int := none
  whereMap : WhereMap := []
  fields : FieldsMap := []
  defaultEntity : Option String := none
  defaultFields : Option (List String) := none

/-- `buildFields` (src/unnamed/part_005 lines 38-52): per entity, join the
truthy-valued field names with `"\n      "`; render the entity block only
when that joined string is truthy (non-empty); drop empty renders and join
the blocks with newlines. -/
def buildFields (fields : FieldsMap) : String :=
  joinSep "\n"
    ((fields.map fun p =>
      let selectedFields := joinSep "\n      "
        ((p.2.filter fun q => q.2).map fun q => q.1)
      if selectedFields ≠ "" then
        "    " ++ p.1 ++ " \x7b\n      " ++ selectedFields ++ "\n    \x7d"
      else "").filter fun s => s ≠ "")

/-- One `operator: value` render inside a filter object
(src/unnamed/part_005 lines 93-98). -/
def renderFilterVal (operator : String) (value : FilterVal) : String :=
  match value with
  | .arr elems => operator ++ ": [" ++ joinSep ", " (elems.map jsStringOf) ++ "]"
  | .scalar v => operator ++ ": " ++ jsonStringify v

/-- `buildWhereClause` (src/unnamed/part_005 lines 87-109). -/
def buildWhereClause (whereMap : WhereMap) : String :=
  let conditions := joinSep ", "
    ((whereMap.map fun p =>
      let filters := joinSep ", "
        (p.2.map fun q =>
          let filterStr := joinSep ", "
            (q.2.map fun c => renderFilterVal c.1 c.2)
          q.1 ++ ": \x7b" ++ filterStr ++ "\x7d")
      if filters ≠ "" then p.1 ++ ": \x7b" ++ filters ++ "\x7d" else "").filter fun s => s ≠ "")
  if conditions ≠ "" then "where: \x7b" ++ conditions ++ "\x7d" else ""

/-- `limit ? \`limit: ${limit}\` : ''` (src/unnamed/part_005 line 173):
number truthiness, so `0` renders nothing. -/
def limitClause : Option Int → String
  | some n => if n = 0 then "" else "limit: " ++ toString n
  | none => ""

/-- `offset ? \`offset: ${offset}\` : ''` (src/unnamed/part_005 line 174). -/
def offsetClause : Option Int → String
  | some n => if n = 0 then "" else "offset: " ++ toString n
  | none => ""

/-- The argument block of `buildCubeQuery` (src/unnamed/part_005 lines
175-177): drop empty clauses, join the rest. -/
def cubeParams (options : CubeQueryOptions) : String :=
  joinSep "\n        "
    ([limitClause options.limit, offsetClause options.offset,
      buildWhereClause options.whereMap].filter fun s => s ≠ "")

/-- The `${defaultEntity}` interpolation: `undefined` renders as the text
"undefined". -/
def defaultEntityText : Option String → String
  | some s => s
  | none => "undefined"

/-- `defaultFieldsString` (src/unnamed/part_005 lines 179-181): gated on
`defaultFields` truthiness alone (an array — even an empty one — is truthy;
`defaultEntity` is merely interpolated). -/
def defaultFieldsString (options : CubeQueryOptions) : String :=
  match options.defaultFields with
  | some dfs =>
    "    " ++ defaultEntityText options.defaultEntity ++ " \x7b\n      " ++
      joinSep "\n      " dfs ++ "\n    \x7d"
  | none => ""

/-- `String.prototype.trim()`: strip leading and trailing whitespace.
(Defined structurally over the character list so that concrete renders
evaluate inside the kernel; the generated text only ever contains ASCII
whitespace.) -/
def jsTrim (s : String) : String :=
  String.mk (((s.data.dropWhile Char.isWhitespace).reverse.dropWhile
    Char.isWhitespace).reverse)

/-- `buildCubeQuery` (src/unnamed/part_005 lines 168-189): assemble the
template literal and `.trim()` it. -/
def buildCubeQuery (options : CubeQueryOptions) : String :=
  let params := cubeParams options
  let selectedFields := buildFields options.fields
  ("\n    query CubeQuery \x7b\n      cube" ++
    (if params ≠ "" then "(\n        " ++ params ++ "\n      )" else "") ++
    " \x7b\n" ++
    (if selectedFields ≠ "" then selectedFields else defaultFieldsString options) ++
    "\n      \x7d\n    \x7d\n  ") |> jsTrim

/-- `GraphQLClient.extractResponseData` (src/unnamed/part_004 lines
279-285): `data: response.data.data` (a throwing member access), fixed
success message. -/
def gqlExtractResponseData (r : AxiosResponse) : Except Thrown ApiResponse :=
  match r.data.readField "data" with
  | .error t => .error t
  | .ok d => .ok { data := d, status := r.status, message := defaultSuccessMessage }

/-- `CubeGraphQLClient.extractResponseData` (src/unnamed/part_004 lines
138-144): `data: response.data.data.cube` (two throwing member accesses),
fixed success message. -/
def cubeExtractResponseData (r : AxiosResponse) : Except Thrown ApiResponse :=
  match r.data.readField "data" with
  | .error t => .error t
  | .ok d =>
    match d.readField "cube" with
    | .error t => .error t
    | .ok c => .ok { data := c, status := r.status, message := defaultSuccessMessage }

/-- `GraphQLClient.query` (src/unnamed/part_004 lines 318-334), success and
error paths after dispatch, parametrized over `this.extractResponseData`
(dynamically dispatched — `CubeGraphQLClient` overrides it). -/
def graphQLQueryRun (extract : AxiosResponse → Except Thrown ApiResponse)
    (t : TransportResult) (cb : Callbacks) : List CallbackEvent :=
  let tried : Except Thrown ApiResponse :=
    match t with
    | .fail f => .error (.axios f)
    | .ok r => extract r
  match tried with
  | .ok formattedResponse => if cb.hasOnSuccess then [.success formattedResponse] else []
  | .error th => if cb.hasOnError then [.failure (thrownToApiError th)] else []

/-- Body shape of a dispatched POST. -/
inductive PostBody where
  | queryOnly (query : String)
  | queryWithVariables (query : String) (vars : List (String × Js))

structure DispatchedPost where
  url : String
  body : PostBody

/-- The POSTs `CubeGraphQLClient.query` dispatches (src/unnamed/part_004
lines 122-130): first `this.api.post(url, \x7b query \x7d)` (awaited,
result discarded), then `super.query(query, \x7b\x7d, callbacks)`, which
posts `\x7b query, variables \x7d` to `''` (the base URL). -/
def cubeQueryPosts (url : String) (options : CubeQueryOptions) : List DispatchedPost :=
  let query := buildCubeQuery options
  [ { url := url, body := .queryOnly query },
    { url := "", body := .queryWithVariables query [] } ]

/-- The true-valued field names of one entity mapping, in insertion
order. -/
def selectedFieldNames (entityFields : List (String × Bool)) : List String :=
  (entityFields.filter fun q => q.2).map fun q => q.1

/-- Modelled from the spec: "for each entity in `fields`, collect the subset
of field names whose value is true (insertion order of the mapping,
filtered), and render `entity \x7b field1 field2 ... \x7d`; entities with no
selected fields are omitted entirely (not rendered as an empty block)".
Written for comparison with `buildFields`, which is translated from the
source. -/
def buildFieldsSpec (fields : FieldsMap) : String :=
  joinSep "\n"
    (((fields.map fun p => (p.1, selectedFieldNames p.2)).filter fun q => q.2 ≠ []).map
      fun q => "    " ++ q.1 ++ " \x7b\n      " ++ joinSep "\n      " q.2 ++ "\n    \x7d")

theorem string_length_zero_iff (s : String) : s.length = 0 ↔ s = "" := by
  constructor
  · intro h
    cases s with
    | mk d =>
      cases d with
      | nil => rfl
      | cons a t => simp [String.length] at h
  · intro h
    subst h
    rfl

theorem string_append_ne_empty (a b : String) (h : a ≠ "") : a ++ b ≠ "" := by
  intro hab
  apply h
  have hlen := congrArg String.length hab
  rw [String.length_append] at hlen
  have h0 : ("" : String).length = 0 := rfl
  rw [h0] at hlen
  exact (string_length_zero_iff a).1 (by omega)

theorem joinSep_eq_empty_iff (sep : String) (l : List String) (h : ∀ x ∈ l, x ≠ "") :
    joinSep sep l = "" ↔ l = [] := by
  match l with
  | [] => simp [joinSep]
  | [a] =>
    simp only [joinSep]
    constructor
    · intro ha
      exact absurd ha (h a (by simp))
    · intro hc
      cases hc
  | a :: b :: rest =>
    simp only [joinSep]
    constructor
    · intro ha
      exact absurd ha
        (string_append_ne_empty _ _ (string_append_ne_empty a sep (h a (by simp))))
    · intro hc
      cases hc

theorem applyErrorInterceptorsGo_args_const (e : ApiError) (l : List ErrorInterceptor)
    (acc : ErrOrResp) : ∀ x ∈ (applyErrorInterceptorsGo e l acc).2, x = e := by
  induction l generalizing acc with
  | nil =>
    intro x hx
    simp [applyErrorInterceptorsGo] at hx
  | cons i rest ih =>
    intro x hx
    simp only [applyErrorInterceptorsGo] at hx
    split at hx
    · simp at hx
      rcases hx with h | h
      · exact h
      · exact ih _ x h
    · split at hx
      · simp at hx
        exact hx
      · simp at hx
        rcases hx with h | h
        · exact h
        · exact ih _ x h

theorem applyErrorInterceptorsGo_skip_throw (e : ApiError) (f : ErrorInterceptor)
    (post : List ErrorInterceptor) (hf : f e = .error ()) :
    ∀ (pre : List ErrorInterceptor) (acc : ErrOrResp),
      (applyErrorInterceptorsGo e (pre ++ f :: post) acc).1 =
        (applyErrorInterceptorsGo e (pre ++ post) acc).1 := by
  intro pre
  induction pre with
  | nil =>
    intro acc
    simp only [List.nil_append, applyErrorInterceptorsGo]
    rw [hf]
  | cons i pre ih =>
    intro acc
    simp only [List.cons_append, applyErrorInterceptorsGo]
    split
    · simp [ih]
    · split
      · rfl
      · simp [ih]

theorem applyErrorInterceptorsGo_no_recovery (e : ApiError) (l : List ErrorInterceptor)
    (h : ∀ i ∈ l, ¬ isRecovery (i e)) (e0 : ApiError) :
    (∃ e', (applyErrorInterceptorsGo e l (.err e0)).1 = .err e') ∧
      (applyErrorInterceptorsGo e l (.err e0)).2.length = l.length := by
  induction l generalizing e0 with
  | nil => exact ⟨⟨e0, rfl⟩, rfl⟩
  | cons i rest ih =>
    have hi : ¬ isRecovery (i e) := h i (by simp)
    have hrest : ∀ j ∈ rest, ¬ isRecovery (j e) := fun j hj => h j (by simp [hj])
    simp only [applyErrorInterceptorsGo]
    cases hie : i e with
    | error u =>
      obtain ⟨⟨e', h1⟩, h2⟩ := ih hrest e0
      exact ⟨⟨e', by simp [h1]⟩, by simp [h2]⟩
    | ok result =>
      cases result with
      | resp r => exact absurd ⟨r, hie⟩ hi
      | err e1 =>
        obtain ⟨⟨e', h1⟩, h2⟩ := ih hrest e1
        refine ⟨⟨e', ?_⟩, ?_⟩
        · simp [ErrOrResp.hasData, h1]
        · simp [ErrOrResp.hasData, h2]

theorem applyErrorInterceptorsGo_promotion (e : ApiError) (f : ErrorInterceptor)
    (r : ApiResponse) (post : List ErrorInterceptor) (hf : f e = .ok (.resp r)) :
    ∀ (pre : List ErrorInterceptor), (∀ i ∈ pre, ¬ isRecovery (i e)) →
      ∀ acc : ErrOrResp,
        (applyErrorInterceptorsGo e (pre ++ f :: post) acc).1 = .resp r ∧
        (applyErrorInterceptorsGo e (pre ++ f :: post) acc).2.length = pre.length + 1 := by
  intro pre
  induction pre with
  | nil =>
    intro _ acc
    simp only [List.nil_append, applyErrorInterceptorsGo]
    rw [hf]
    exact ⟨rfl, rfl⟩
  | cons i pre ih =>
    intro h acc
    have hi : ¬ isRecovery (i e) := h i (by simp)
    have hpre : ∀ j ∈ pre, ¬ isRecovery (j e) := fun j hj => h j (by simp [hj])
    simp only [List.cons_append, applyErrorInterceptorsGo]
    cases hie : i e with
    | error u =>
      obtain ⟨h1, h2⟩ := ih hpre acc
      exact ⟨by simp [h1], by simp [h2]⟩
    | ok result =>
      cases result with
      | resp r' => exact absurd ⟨r', hie⟩ hi
      | err e1 =>
        obtain ⟨h1, h2⟩ := ih hpre (.err e1)
        refine ⟨?_, ?_⟩
        · simp [ErrOrResp.hasData, h1]
        · simp [ErrOrResp.hasData, h2]

/-- C1 (amended): during error-phase application every error transform is
invoked with the *original* normalized error — the source passes the
`error` parameter, never the accumulated `processedError`, so the sequence
of invocation arguments is constant. Each transform still returns either a
new error or a `Response` recovery. -/
theorem errorInterceptors_receive_original_error (ints : List ErrorInterceptor) (e : ApiError) :
    errorInterceptorArgs ints e = List.replicate (errorInterceptorArgs ints e).length e :=
  List.eq_replicate_of_mem (applyErrorInterceptorsGo_args_const e ints (.err e))

/-- C1 counterexample: in a two-transform chain whose first transform
rewrites the error, the second transform is still invoked with the original
error rather than the first transform's output, and the chain's result
consequently differs from the spec's chained semantics. -/
theorem errorInterceptors_not_chained_cex :
    let e0 : ApiError :=
      { message := .str "boom", status := 500, code := none, details := .undefined }
    let e1 : ApiError :=
      { message := .str "rewritten", status := 401, code := none, details := .undefined }
    let f : ErrorInterceptor := fun _ => .ok (.err e1)
    let g : ErrorInterceptor := fun e => .ok (.err e)
    f e0 = .ok (.err e1) ∧
    e1 ≠ e0 ∧
    errorInterceptorArgs [f, g] e0 = [e0, e0] ∧
    applyErrorInterceptors [f, g] e0 = .err e0 ∧
    applyErrorInterceptorsSpecChained [f, g] e0 = .err e1 := by
  refine ⟨rfl, ?_, rfl, rfl, rfl⟩
  intro h
  exact absurd (congrArg ApiError.status h) (by decide)

/-- C2: as soon as an error transform returns a value with a `data` field,
the chain stops (no later transform is invoked), the recovery is the
chain's result and only `onSuccess` can fire for it; if no transform
returns such a value the chain ends in an error that goes to `onError`.
The third conjunct ties the chain to the verb pipeline's failure path. -/
theorem errorInterceptor_promotion :
    (∀ (pre post : List ErrorInterceptor) (f : ErrorInterceptor) (e : ApiError)
        (r : ApiResponse) (cb : Callbacks),
      (∀ i ∈ pre, ¬ isRecovery (i e)) → f e = .ok (.resp r) → cb.hasOnSuccess = true →
      applyErrorInterceptors (pre ++ f :: post) e = .resp r ∧
      (errorInterceptorArgs (pre ++ f :: post) e).length = pre.length + 1 ∧
      dispatchErrorResult cb (applyErrorInterceptors (pre ++ f :: post) e) =
        [.success r] ∧
      ∀ ev ∈ dispatchErrorResult cb (applyErrorInterceptors (pre ++ f :: post) e),
        ev.isFailure = false) ∧
    (∀ (ints : List ErrorInterceptor) (e : ApiError) (cb : Callbacks),
      (∀ i ∈ ints, ¬ isRecovery (i e)) → cb.hasOnError = true →
      ∃ e', applyErrorInterceptors ints e = .err e' ∧
        dispatchErrorResult cb (applyErrorInterceptors ints e) = [.failure e']) ∧
    (∀ (rIs : List ResponseInterceptor) (eIs : List ErrorInterceptor)
        (fl : AxiosFailure) (cb : Callbacks),
      verbRun rIs eIs (.fail fl) cb =
        dispatchErrorResult cb (applyErrorInterceptors eIs (extractErrorData fl))) := by
  refine ⟨?_, ?_, ?_⟩
  · intro pre post f e r cb hpre hf hS
    obtain ⟨h1, h2⟩ := applyErrorInterceptorsGo_promotion e f r post hf pre hpre (.err e)
    have hr : applyErrorInterceptors (pre ++ f :: post) e = .resp r := h1
    refine ⟨hr, h2, ?_, ?_⟩
    · rw [hr]
      simp [dispatchErrorResult, hS]
    · intro ev hev
      rw [hr] at hev
      simp [dispatchErrorResult, hS] at hev
      rw [hev]
      rfl
  · intro ints e cb hno hE
    obtain ⟨⟨e', h1⟩, _⟩ := applyErrorInterceptorsGo_no_recovery e ints hno e
    have he : applyErrorInterceptors ints e = .err e' := h1
    refine ⟨e', he, ?_⟩
    rw [he]
    simp [dispatchErrorResult, hE]
  · intro rIs eIs fl cb
    rfl

/-- C2 witness: a one-transform chain returning a recovery delivers exactly
that recovery to `onSuccess`; an empty chain delivers the error to
`onError`. -/
theorem errorInterceptor_promotion_witness :
    (dispatchErrorResult { hasOnSuccess := true, hasOnError := true }
      (applyErrorInterceptors
        [fun _ => .ok (.resp { data := Js.obj [], status := 200, message := Js.str "ok" })]
        { message := Js.str "boom", status := 500, code := none, details := Js.undefined }) =
      [.success { data := Js.obj [], status := 200, message := Js.str "ok" }]) ∧
    (dispatchErrorResult { hasOnSuccess := true, hasOnError := true }
      (applyErrorInterceptors []
        { message := Js.str "boom", status := 500, code := none, details := Js.undefined }) =
      [.failure { message := Js.str "boom", status := 500, code := none,
                  details := Js.undefined }]) := by
  constructor
  · exact (errorInterceptor_promotion.1 [] []
      (fun _ => .ok (.resp { data := Js.obj [], status := 200, message := Js.str "ok" }))
      { message := Js.str "boom", status := 500, code := none, details := Js.undefined }
      { data := Js.obj [], status := 200, message := Js.str "ok" }
      { hasOnSuccess := true, hasOnError := true }
      (by simp) rfl rfl).2.2.1
  · obtain ⟨e', h1, h2⟩ := errorInterceptor_promotion.2.1 []
      { message := Js.str "boom", status := 500, code := none, details := Js.undefined }
      { hasOnSuccess := true, hasOnError := true } (by simp) rfl
    have he : ErrOrResp.err
        { message := Js.str "boom", status := 500, code := none, details := Js.undefined } =
        ErrOrResp.err e' := by rw [← h1]; rfl
    injection he with he'
    rw [← he'] at h2
    exact h2

/-- Case split on the outcome of a verb call: it either performs the
`onSuccess?.` invocation for some response or the `onError?.` invocation
for some error, each gated on the corresponding callback's presence. -/
theorem verbRun_shape (rIs : List ResponseInterceptor) (eIs : List ErrorInterceptor)
    (t : TransportResult) (cb : Callbacks) :
    (∃ fr, verbRun rIs eIs t cb = if cb.hasOnSuccess then [CallbackEvent.success fr] else []) ∨
    (∃ er, verbRun rIs eIs t cb = if cb.hasOnError then [CallbackEvent.failure er] else []) := by
  unfold verbRun
  cases htr : verbTry rIs t with
  | ok fr => exact Or.inl ⟨fr, rfl⟩
  | error th =>
    cases happ : applyErrorInterceptors eIs (thrownToApiError th) with
    | err e' =>
      right
      exact ⟨e', by simp [dispatchErrorResult, happ]⟩
    | resp r =>
      left
      exact ⟨r, by simp [dispatchErrorResult, happ]⟩

/-- C3 counterexample: a successful call with only `onError` supplied fires
zero callbacks — the claim's "never zero" fails whenever the callback
matching the outcome is the omitted one. -/
theorem callback_can_be_skipped_cex :
    ({ hasOnSuccess := false, hasOnError := true } : Callbacks).hasOnError = true ∧
    verbRun [] [] (.ok { status := 200, data := Js.obj [("ok", Js.bool true)] })
      { hasOnSuccess := false, hasOnError := true } = [] :=
  ⟨rfl, rfl⟩

/-- C3 (amended): each verb call selects exactly one of the two callbacks;
the selected callback fires exactly once when supplied and not at all when
omitted; the two callbacks never both fire, and with both omitted nothing
fires. -/
theorem verb_at_most_one_callback (rIs : List ResponseInterceptor)
    (eIs : List ErrorInterceptor) (t : TransportResult) (cb : Callbacks) :
    (verbRun rIs eIs t cb).length ≤ 1 ∧
    (∀ r e, ¬ (CallbackEvent.success r ∈ verbRun rIs eIs t cb ∧
               CallbackEvent.failure e ∈ verbRun rIs eIs t cb)) ∧
    (cb.hasOnSuccess = true → cb.hasOnError = true → (verbRun rIs eIs t cb).length = 1) ∧
    (cb.hasOnSuccess = false → cb.hasOnError = false → verbRun rIs eIs t cb = []) := by
  obtain ⟨s, e⟩ := cb
  rcases verbRun_shape rIs eIs t ⟨s, e⟩ with ⟨fr, h⟩ | ⟨er, h⟩ <;>
    rw [h] <;> cases s <;> cases e <;> simp

/-- C3 witness: with both callbacks supplied, exactly one fires. -/
theorem verb_at_most_one_callback_witness :
    (verbRun [] [] (.ok { status := 200, data := Js.obj [] })
      { hasOnSuccess := true, hasOnError := true }).length = 1 :=
  (verb_at_most_one_callback [] [] (.ok { status := 200, data := Js.obj [] })
    { hasOnSuccess := true, hasOnError := true }).2.2.1 rfl rfl

/-- C4: a throwing error transform is caught (the chain is a total
function), the chain's value is unchanged by the thrower — it equals the
chain with the thrower removed, so the accumulator keeps the last
successfully-produced value — and, when no transform recovers, every
transform in the chain including those after the thrower is still
invoked. (The `console.warn` logging is a side effect outside the model.) -/
theorem errorInterceptor_exception_safety :
    (∀ (pre post : List ErrorInterceptor) (f : ErrorInterceptor) (e : ApiError),
      f e = .error () →
      applyErrorInterceptors (pre ++ f :: post) e = applyErrorInterceptors (pre ++ post) e) ∧
    (∀ (pre post : List ErrorInterceptor) (f : ErrorInterceptor) (e : ApiError),
      f e = .error () → (∀ i ∈ pre ++ f :: post, ¬ isRecovery (i e)) →
      (errorInterceptorArgs (pre ++ f :: post) e).length =
        pre.length + 1 + post.length) := by
  constructor
  · intro pre post f e hf
    exact applyErrorInterceptorsGo_skip_throw e f post hf pre (.err e)
  · intro pre post f e hf hno
    obtain ⟨-, h2⟩ := applyErrorInterceptorsGo_no_recovery e (pre ++ f :: post) hno e
    rw [errorInterceptorArgs, h2]
    simp
    omega

/-- C4 witness: an always-throwing transform placed between two benign
transforms leaves the chain's result intact and all three are invoked. -/
theorem errorInterceptor_exception_safety_witness :
    (applyErrorInterceptors
        [fun e => .ok (.err e), fun _ => .error (), fun e => .ok (.err e)]
        { message := Js.str "boom", status := 500, code := none, details := Js.undefined } =
      applyErrorInterceptors [fun e => .ok (.err e), fun e => .ok (.err e)]
        { message := Js.str "boom", status := 500, code := none, details := Js.undefined }) ∧
    (errorInterceptorArgs
        [fun e => .ok (.err e), fun _ => .error (), fun e => .ok (.err e)]
        { message := Js.str "boom", status := 500, code := none,
          details := Js.undefined }).length = 3 := by
  constructor
  · exact errorInterceptor_exception_safety.1 [fun e => .ok (.err e)] [fun e => .ok (.err e)]
      (fun _ => .error ())
      { message := Js.str "boom", status := 500, code := none, details := Js.undefined } rfl
  · exact (errorInterceptor_exception_safety.2 [fun e => .ok (.err e)] [fun e => .ok (.err e)]
      (fun _ => .error ())
      { message := Js.str "boom", status := 500, code := none, details := Js.undefined } rfl
      (by rintro i hi ⟨r, hr⟩; simp at hi; rcases hi with h | h | h <;>
        (subst h; cases hr))).trans (by rfl)

/-- C5 counterexample: a single `query` call dispatches two POSTs, and the
first carries only `\x7b query \x7d` (no `variables` member) — the claim's
"exactly one POST with body shape \x7bquery, variables\x7d" fails. -/
theorem cube_query_single_post_cex :
    (cubeQueryPosts "/cubejs-api/graphql" {}).length = 2 ∧
    (cubeQueryPosts "/cubejs-api/graphql" {}).map DispatchedPost.url =
      ["/cubejs-api/graphql", ""] ∧
    (cubeQueryPosts "/cubejs-api/graphql" {}).map DispatchedPost.body =
      [.queryOnly (buildCubeQuery {}), .queryWithVariables (buildCubeQuery {}) []] :=
  ⟨rfl, rfl, rfl⟩

/-- C5 (amended): the analytics `query` dispatches two POSTs — one to the
given url with body `\x7b query \x7d` (result discarded) and one through
the base client to the base endpoint with body `\x7b query, variables:
\x7b\x7d \x7d`, both carrying the synthesized query text; on success of the
delegated request the delivered payload is the transport payload unwrapped
one extra nesting level (`data.cube`) relative to the base client. -/
theorem cube_query_dispatch_and_unwrap :
    (∀ (url : String) (options : CubeQueryOptions),
      cubeQueryPosts url options =
        [{ url := url, body := .queryOnly (buildCubeQuery options) },
         { url := "", body := .queryWithVariables (buildCubeQuery options) [] }]) ∧
    (∀ (r : AxiosResponse) (d c : Js) (cb : Callbacks),
      r.data.readField "data" = .ok d → d.readField "cube" = .ok c →
      cb.hasOnSuccess = true →
      graphQLQueryRun cubeExtractResponseData (.ok r) cb =
        [.success { data := c, status := r.status, message := defaultSuccessMessage }]) ∧
    (∀ r : AxiosResponse,
      cubeExtractResponseData r =
        match gqlExtractResponseData r with
        | .error t => .error t
        | .ok fr =>
          match fr.data.readField "cube" with
          | .error t => .error t
          | .ok c => .ok { fr with data := c }) := by
  refine ⟨fun url options => rfl, ?_, ?_⟩
  · intro r d c cb h1 h2 hS
    have hx : cubeExtractResponseData r =
        .ok { data := c, status := r.status, message := defaultSuccessMessage } := by
      unfold cubeExtractResponseData
      rw [h1]
      dsimp only
      rw [h2]
    simp only [graphQLQueryRun, hx, hS]
    rfl
  · intro r
    unfold cubeExtractResponseData gqlExtractResponseData
    cases h1 : r.data.readField "data" with
    | error t => rfl
    | ok d => cases h2 : d.readField "cube" with
      | error t => rfl
      | ok c => rfl

/-- C5 witness: a doubly-nested payload `\x7bdata: \x7bcube: v\x7d\x7d` is
delivered as `v`. -/
theorem cube_query_dispatch_and_unwrap_witness :
    graphQLQueryRun cubeExtractResponseData
      (.ok { status := 200,
             data := Js.obj [("data", Js.obj [("cube", Js.str "rows")])] })
      { hasOnSuccess := true, hasOnError := false } =
      [.success { data := Js.str "rows", status := 200,
                  message := defaultSuccessMessage }] :=
  cube_query_dispatch_and_unwrap.2.1
    { status := 200, data := Js.obj [("data", Js.obj [("cube", Js.str "rows")])] }
    (Js.obj [("cube", Js.str "rows")]) (Js.str "rows")
    { hasOnSuccess := true, hasOnError := false } rfl rfl rfl

theorem jsOr_self (a : Js) : jsOr a a = a := by
  unfold jsOr
  split <;> rfl

/-- C6: the second positional argument of GET/DELETE is treated as the
callbacks object exactly when it has an `onSuccess` or `onError` key (key
presence, not type) — then no query parameters are dispatched; otherwise it
is the params map, the third argument (defaulting to an empty object)
supplies the callbacks, and the map itself is dispatched as the query
parameters. -/
theorem get_overload_disambiguation :
    (∀ (poc : Js) (cbs : Option Js) (url : String),
      poc.truthy = true →
      (poc.hasKey "onSuccess" = true ∨ poc.hasKey "onError" = true) →
      resolveParamsOrCallbacks poc cbs = (Js.undefined, poc) ∧
      getSentParams [] url poc cbs = Js.undefined) ∧
    (∀ (poc : Js) (cbs : Option Js) (url : String),
      poc.hasKey "onSuccess" = false → poc.hasKey "onError" = false →
      resolveParamsOrCallbacks poc cbs = (poc, cbs.getD (Js.obj [])) ∧
      getSentParams [] url poc cbs = poc) ∧
    (getSentParams [] "/votos" (Js.obj [("onSuccess", Js.num 1)]) none = Js.undefined) ∧
    (getSentParams [] "/votos" (Js.obj [("userId", Js.str "1")])
      (some (Js.obj [("onSuccess", Js.num 1)])) = Js.obj [("userId", Js.str "1")]) := by
  refine ⟨?_, ?_, rfl, rfl⟩
  · intro poc cbs url ht hk
    have hcond : (poc.truthy &&
        (poc.hasKey "onSuccess" || poc.hasKey "onError")) = true := by
      rcases hk with h | h <;> simp [ht, h]
    have hres : resolveParamsOrCallbacks poc cbs = (Js.undefined, poc) := by
      unfold resolveParamsOrCallbacks
      rw [if_pos hcond]
    refine ⟨hres, ?_⟩
    unfold getSentParams
    rw [hres]
    rfl
  · intro poc cbs url h1 h2
    have hcond : (poc.truthy &&
        (poc.hasKey "onSuccess" || poc.hasKey "onError")) = false := by
      simp [h1, h2]
    have hres : resolveParamsOrCallbacks poc cbs = (poc, cbs.getD (Js.obj [])) := by
      unfold resolveParamsOrCallbacks
      rw [if_neg (by simp [hcond])]
    refine ⟨hres, ?_⟩
    unfold getSentParams
    rw [hres]
    exact jsOr_self poc

/-- C6 witness: a callbacks-shaped second argument suppresses params; a
params-shaped one is sent as `userId=1`. -/
theorem get_overload_disambiguation_witness :
    resolveParamsOrCallbacks (Js.obj [("onError", Js.null)]) none =
      (Js.undefined, Js.obj [("onError", Js.null)]) ∧
    resolveParamsOrCallbacks (Js.obj [("userId", Js.str "1")]) none =
      (Js.obj [("userId", Js.str "1")], Js.obj []) :=
  ⟨(get_overload_disambiguation.1 (Js.obj [("onError", Js.null)]) none "/votos" rfl
      (Or.inr rfl)).1,
   (get_overload_disambiguation.2.1 (Js.obj [("userId", Js.str "1")]) none "/votos"
      rfl rfl).1⟩

/-- C7 counterexample: a received failure payload whose `message` member is
present but the empty string is normalized to the fixed default message —
the `||` operator tests truthiness, not presence. -/
theorem extractErrorData_empty_message_cex :
    (Js.obj [("message", Js.str "")]).hasKey "message" = true ∧
    (extractErrorData
        { response := some { status := 404, data := Js.obj [("message", Js.str "")] },
          code := some "ERR_BAD_REQUEST" }).message = defaultErrorMessage ∧
    defaultErrorMessage ≠ Js.str "" := by
  refine ⟨rfl, rfl, ?_⟩
  intro h
  have := Js.str.inj (h.symm.trans (by unfold defaultErrorMessage; rfl))
  simp at this

/-- C7 (amended): on a transport failure the normalized error has `status`
equal to the received response's status when one was received (a zero
status, being falsy, also maps to 500), else 500; `message` equal to the
failure payload's `message` member when that member is truthy (present and
non-empty), else the fixed default; `code` equal to the transport error
code; and `details` equal to the raw failure payload. -/
theorem extractErrorData_field_spec (f : AxiosFailure) :
    ((f.response = none →
        (extractErrorData f).status = 500 ∧
        (extractErrorData f).details = Js.undefined ∧
        (extractErrorData f).message = defaultErrorMessage) ∧
     (∀ r, f.response = some r →
        (extractErrorData f).details = r.data ∧
        (r.status ≠ 0 → (extractErrorData f).status = r.status) ∧
        ((r.data.optField "message").truthy = true →
          (extractErrorData f).message = r.data.optField "message") ∧
        ((r.data.optField "message").truthy = false →
          (extractErrorData f).message = defaultErrorMessage)) ∧
     (extractErrorData f).code = f.code) := by
  refine ⟨?_, ?_, rfl⟩
  · intro hn
    unfold extractErrorData
    rw [hn]
    exact ⟨rfl, rfl, rfl⟩
  · intro r hr
    unfold extractErrorData
    rw [hr]
    refine ⟨rfl, ?_, ?_, ?_⟩
    · intro hs
      simp [hs]
    · intro ht
      simp [jsOr, ht]
    · intro ht
      simp [jsOr, ht]

/-- C7 witness: a network-level failure (no response) yields status 500,
the default message and `undefined` details; a received 404 with a truthy
payload message propagates both. -/
theorem extractErrorData_field_spec_witness :
    ((extractErrorData { response := none, code := some "ECONNREFUSED" }).status = 500 ∧
     (extractErrorData { response := none, code := some "ECONNREFUSED" }).details =
       Js.undefined ∧
     (extractErrorData { response := none, code := some "ECONNREFUSED" }).message =
       defaultErrorMessage) ∧
    (extractErrorData
        { response := some { status := 404, data := Js.obj [("message", Js.str "no")] },
          code := none }).message = Js.str "no" := by
  constructor
  · exact (extractErrorData_field_spec { response := none, code := some "ECONNREFUSED" }).1 rfl
  · have h := ((extractErrorData_field_spec
        { response := some { status := 404, data := Js.obj [("message", Js.str "no")] },
          code := none }).2.1
      { status := 404, data := Js.obj [("message", Js.str "no")] } rfl).2.2.1 (by rfl)
    exact h.trans (by rfl)

/-- C10: when the transport succeeds but the payload is `null` or
`undefined`, the success normalizer's read of the payload's `message` field
raises, and the call is routed through the error path: with the default
(empty) interceptor chains, `onError` fires with status 500 and the default
error message even though the transport call succeeded. -/
theorem null_payload_routes_to_error (s : Nat) :
    extractResponseData { status := s, data := Js.null } = .error .jsError ∧
    extractResponseData { status := s, data := Js.undefined } = .error .jsError ∧
    verbRun [] [] (.ok { status := s, data := Js.null })
      { hasOnSuccess := true, hasOnError := true } =
      [.failure { message := defaultErrorMessage, status := 500, code := none,
                  details := Js.undefined }] ∧
    verbRun [] [] (.ok { status := s, data := Js.undefined })
      { hasOnSuccess := true, hasOnError := true } =
      [.failure { message := defaultErrorMessage, status := 500, code := none,
                  details := Js.undefined }] :=
  ⟨rfl, rfl, rfl, rfl⟩

theorem buildFieldsList_eq : ∀ (fields : List (String × List (String × Bool))),
    (∀ p ∈ fields, ∀ n ∈ selectedFieldNames p.2, n ≠ "") →
    ((fields.map fun p =>
      if joinSep "\n      " ((p.2.filter fun q => q.2).map fun q => q.1) ≠ "" then
        "    " ++ p.1 ++ " \x7b\n      " ++
          joinSep "\n      " ((p.2.filter fun q => q.2).map fun q => q.1) ++ "\n    \x7d"
      else "").filter fun s => s ≠ "") =
    (((fields.map fun p => (p.1, selectedFieldNames p.2)).filter fun q => q.2 ≠ []).map
      fun q => "    " ++ q.1 ++ " \x7b\n      " ++ joinSep "\n      " q.2 ++ "\n    \x7d") := by
  intro fields
  induction fields with
  | nil => intro h; rfl
  | cons p rest ih =>
    intro h
    have hp : ∀ n ∈ selectedFieldNames p.2, n ≠ "" := h p (by simp)
    have hrest : ∀ q ∈ rest, ∀ n ∈ selectedFieldNames q.2, n ≠ "" :=
      fun q hq => h q (by simp [hq])
    have hnames : ((p.2.filter fun q => q.2).map fun q => q.1) = selectedFieldNames p.2 := rfl
    by_cases hsel : selectedFieldNames p.2 = []
    · have hjoin : joinSep "\n      " ((p.2.filter fun q => q.2).map fun q => q.1) = "" := by
        rw [hnames, hsel]
        rfl
      simp only [List.map_cons, List.filter_cons, hjoin, hnames, hsel]
      simp [joinSep]
      have ih2 := ih hrest
      simp only [ne_eq, decide_not, ite_not] at ih2
      exact ih2
    · have hjoin : joinSep "\n      " (selectedFieldNames p.2) ≠ "" := by
        intro hj
        exact hsel ((joinSep_eq_empty_iff _ _ hp).1 hj)
      have hblock : "    " ++ p.1 ++ " \x7b\n      " ++
          joinSep "\n      " (selectedFieldNames p.2) ++ "\n    \x7d" ≠ "" :=
        string_append_ne_empty _ _ (string_append_ne_empty _ _
          (string_append_ne_empty _ _ (string_append_ne_empty "    " p.1 (by decide))))
      simp only [List.map_cons, List.filter_cons, hnames]
      rw [if_pos hjoin]
      rw [if_pos (show decide (("    " ++ p.1 ++ " \x7b\n      " ++
          joinSep "\n      " (selectedFieldNames p.2) ++ "\n    \x7d") ≠ "") = true by
        simp [hblock])]
      rw [if_pos (show decide (selectedFieldNames p.2 ≠ []) = true by simp [hsel])]
      simp only [List.map_cons]
      rw [ih hrest]

/-- C8 counterexample: with `fields` absent and `defaultFields` absent, a
present `defaultEntity` triggers no fallback — the output is identical to
the output with no `defaultEntity` at all and contains no entity block. The
fallback is gated on `defaultFields`, not on `defaultEntity`. -/
theorem default_entity_fallback_cex :
    buildCubeQuery { defaultEntity := some "vendas" } = buildCubeQuery {} ∧
    buildCubeQuery { defaultEntity := some "vendas" } =
      "query CubeQuery \x7b\n      cube \x7b\n\n      \x7d\n    \x7d" :=
  ⟨rfl, by decide⟩

/-- C8 (amended): each entity's rendered block contains exactly the field
names whose value is true, in insertion order, and entities with no
selected fields are omitted entirely (formalized for non-empty field names:
`buildFields` agrees with the spec-worded renderer); when `fields` selects
nothing, the fallback block is rendered exactly when `defaultFields` is
present (not when `defaultEntity` is present — an absent `defaultEntity` is
interpolated as the text "undefined"). -/
theorem field_projection_and_fallback :
    (∀ fields : FieldsMap,
      (∀ p ∈ fields, ∀ n ∈ selectedFieldNames p.2, n ≠ "") →
      buildFields fields = buildFieldsSpec fields) ∧
    (buildFields [("sales", [("total", true), ("status", false)])] =
      "    sales \x7b\n      total\n    \x7d") ∧
    (∀ options : CubeQueryOptions,
      defaultFieldsString options = "" ↔ options.defaultFields = none) ∧
    (buildCubeQuery { defaultEntity := some "vendas", defaultFields := some ["id", "total"] } =
      "query CubeQuery \x7b\n      cube \x7b\n    vendas \x7b\n      id\n      total\n    \x7d\n      \x7d\n    \x7d") ∧
    (buildCubeQuery { defaultFields := some ["id"] } =
      "query CubeQuery \x7b\n      cube \x7b\n    undefined \x7b\n      id\n    \x7d\n      \x7d\n    \x7d") := by
  refine ⟨?_, rfl, ?_, by decide, by decide⟩
  · intro fields h
    unfold buildFields buildFieldsSpec
    exact congrArg (joinSep "\n") (buildFieldsList_eq fields h)
  · intro options
    cases hdf : options.defaultFields with
    | none => simp [defaultFieldsString, hdf]
    | some dfs =>
      unfold defaultFieldsString
      rw [hdf]
      constructor
      · intro hc
        exact absurd hc (string_append_ne_empty _ _ (string_append_ne_empty _ _
          (string_append_ne_empty "    " _ (by decide))))
      · intro hc
        cases hc

/-- C8 witness: the spec's own example — `total` selected, `status`
excluded — agrees between source renderer and spec renderer. -/
theorem field_projection_and_fallback_witness :
    buildFields [("sales", [("total", true), ("status", false)])] =
      buildFieldsSpec [("sales", [("total", true), ("status", false)])] :=
  field_projection_and_fallback.1 [("sales", [("total", true), ("status", false)])] (by
    intro p hp n hn
    simp only [List.mem_singleton] at hp
    subst hp
    simp [selectedFieldNames] at hn
    subst hn
    decide)

/-- C9: `limit: <n>` and `offset: <n>` clauses are rendered only when the
value is truthy — `0` (like an unset value) produces no clause, and the
output for `limit: 0` (resp. `offset: 0`) is byte-identical to the output
with the value unset; a non-zero value renders the clause into the query
text. -/
theorem limit_offset_truthiness :
    (∀ options : CubeQueryOptions,
      buildCubeQuery { options with limit := some 0 } =
        buildCubeQuery { options with limit := none }) ∧
    (∀ options : CubeQueryOptions,
      buildCubeQuery { options with offset := some 0 } =
        buildCubeQuery { options with offset := none }) ∧
    (∀ l : Option Int, limitClause l = "" ↔ l = none ∨ l = some 0) ∧
    (∀ o : Option Int, offsetClause o = "" ↔ o = none ∨ o = some 0) ∧
    buildCubeQuery { limit := some 20 } =
      "query CubeQuery \x7b\n      cube(\n        limit: 20\n      ) \x7b\n\n      \x7d\n    \x7d" ∧
    buildCubeQuery { offset := some 7 } =
      "query CubeQuery \x7b\n      cube(\n        offset: 7\n      ) \x7b\n\n      \x7d\n    \x7d" := by
  refine ⟨fun options => rfl, fun options => rfl, ?_, ?_, by decide, by decide⟩
  · intro l
    cases l with
    | none => simp [limitClause]
    | some n =>
      by_cases hn : n = 0
      · simp [limitClause, hn]
      · simp only [limitClause, if_neg hn]
        constructor
        · intro hc
          exact absurd hc (string_append_ne_empty "limit: " _ (by decide))
        · rintro (hc | hc)
          · cases hc
          · exact absurd (Option.some.inj hc) hn
  · intro o
    cases o with
    | none => simp [offsetClause]
    | some n =>
      by_cases hn : n = 0
      · simp [offsetClause, hn]
      · simp only [offsetClause, if_neg hn]
        constructor
        · intro hc
          exact absurd hc (string_append_ne_empty "offset: " _ (by decide))
        · rintro (hc | hc)
          · cases hc
          · exact absurd (Option.some.inj hc) hn

/-- C9 witness: the `limit: 0` render equals the unset render, and a unit
clause-level check. -/
theorem limit_offset_truthiness_witness :
    buildCubeQuery { limit := some 0 } = buildCubeQuery { limit := none } ∧
    limitClause (some 0) = "" :=
  ⟨limit_offset_truthiness.1 {}, (limit_offset_truthiness.2.2.1 (some 0)).2 (Or.inr rfl)⟩

end FnApi

